import Mathlib

/-!
Verification development for the QuickBooks authenticated-request subsystem
(`qb_auth_manager.py`, `qb_error_handler.py`).

The Python code is shallowly embedded: the credential dictionary becomes an
association list of strings, `datetime` values become microseconds since
0001-01-01 (proleptic Gregorian, as Python's naive `datetime`), and the two
network touch points (the token-endpoint POST inside `refresh_access_token`
and the `requests.request` call inside `make_authenticated_request`) consume
scripted outcomes from explicit queues in the state, which models an
arbitrary network environment.  File persistence (`_save_credentials`) is
modelled by a `file` component of the state that is overwritten with the
in-memory credential map exactly where the Python calls `_save_credentials`.
-/

/-! ## Credential dictionary (`self.credentials`, a Python `dict[str, str]`) -/

abbrev Credentials := List (String × String)

/-- Python `credentials.get(key)`: value of the first (unique, for dicts)
matching key, `None` if absent. -/
def credGet : Credentials → String → Option String
  | [], _ => none
  | p :: ps, k => if p.1 = k then some p.2 else credGet ps k

/-- Python `credentials[key] = value`: replace in place if the key is
present, otherwise append (dict insertion order). -/
def credSet : Credentials → String → String → Credentials
  | [], k, v => [(k, v)]
  | p :: ps, k, v => if p.1 = k then (k, v) :: ps else p :: credSet ps k v

/-! ## Naive datetimes as microseconds since 0001-01-01T00:00:00

Python's `datetime.fromisoformat` / `isoformat` pair is embedded with an
explicit proleptic-Gregorian calendar. -/

def isLeap (y : Nat) : Bool := (y % 4 == 0 && y % 100 != 0) || y % 400 == 0

def daysInMonth (y m : Nat) : Nat :=
  if m == 2 then (if isLeap y then 29 else 28)
  else if m == 4 || m == 6 || m == 9 || m == 11 then 30
  else 31

/-- Days contributed by the months strictly before month `m` of year `y`. -/
def daysBeforeMonth (y m : Nat) : Nat :=
  (List.range (m - 1)).foldl (fun acc i => acc + daysInMonth y (i + 1)) 0

/-- Number of leap years among years `1..y` (proleptic Gregorian). -/
def leapsUpTo (y : Nat) : Nat := y / 4 - y / 100 + y / 400

/-- Days from 0001-01-01 to `y`-`m`-`d` (all fields 1-based, `y ≥ 1`). -/
def daysFromCivil (y m d : Nat) : Nat :=
  365 * (y - 1) + leapsUpTo (y - 1) + daysBeforeMonth y m + (d - 1)

/-- Microseconds since 0001-01-01T00:00:00. -/
def mkDT (y m d h mi s us : Nat) : Nat :=
  (((daysFromCivil y m d * 24 + h) * 60 + mi) * 60 + s) * 1000000 + us

/-- Inverse of `daysFromCivil` (Hinnant's `civil_from_days`, shifted to a
0000-03-01 era origin so all arithmetic stays in `Nat`). -/
def civilFromDays (z : Nat) : Nat × Nat × Nat :=
  let z' := z + 306
  let era := z' / 146097
  let doe := z' % 146097
  let yoe := (doe - doe / 1460 + doe / 36524 - doe / 146096) / 365
  let y0 := yoe + era * 400
  let doy := doe - (365 * yoe + yoe / 4 - yoe / 100)
  let mp := (5 * doy + 2) / 153
  let d := doy - (153 * mp + 2) / 5 + 1
  let m := if mp < 10 then mp + 3 else mp - 9
  (if m ≤ 2 then y0 + 1 else y0, m, d)

def parseNatDigits : List Char → Option Nat
  | [] => none
  | cs =>
      if cs.all Char.isDigit then
        some (cs.foldl (fun a c => a * 10 + (c.toNat - 48)) 0)
      else none

/-- Python `datetime.fromisoformat`, restricted to the layouts this program
reads and writes: `YYYY-MM-DD`, optionally followed by `THH:MM:SS` and an
optional fractional part of 1-6 digits.  Returns `none` where Python raises
`ValueError`. -/
def fromisoformat (s : String) : Option Nat := do
  let cs := s.data
  let y ← parseNatDigits (cs.take 4)
  guard ((cs.drop 4).take 1 = ['-'])
  let m ← parseNatDigits ((cs.drop 5).take 2)
  guard ((cs.drop 5).length ≥ 2)
  guard ((cs.drop 7).take 1 = ['-'])
  let d ← parseNatDigits ((cs.drop 8).take 2)
  guard ((cs.drop 8).length ≥ 2)
  let timePart := cs.drop 10
  let (h, mi, sec, us) ←
    (match timePart with
     | [] => some (0, 0, 0, 0)
     | 'T' :: rest => do
        let h ← parseNatDigits (rest.take 2)
        guard (rest.length ≥ 2)
        guard ((rest.drop 2).take 1 = [':'])
        let mi ← parseNatDigits ((rest.drop 3).take 2)
        guard ((rest.drop 3).length ≥ 2)
        guard ((rest.drop 5).take 1 = [':'])
        let sec ← parseNatDigits ((rest.drop 6).take 2)
        guard ((rest.drop 6).length ≥ 2)
        let frac := rest.drop 8
        let us ←
          (match frac with
           | [] => some 0
           | '.' :: fs =>
              if fs.length < 1 || fs.length > 6 then none
              else do
                let f ← parseNatDigits fs
                some (f * 10 ^ (6 - fs.length))
           | _ => none)
        some (h, mi, sec, us)
     | _ => none)
  guard (1 ≤ y)
  guard (1 ≤ m ∧ m ≤ 12)
  guard (1 ≤ d ∧ d ≤ daysInMonth y m)
  guard (h ≤ 23 ∧ mi ≤ 59 ∧ sec ≤ 59)
  some (mkDT y m d h mi sec us)

def padNum (width n : Nat) : String :=
  let s := toString n
  String.mk (List.replicate (width - s.length) '0') ++ s

/-- Python `datetime.isoformat()` on a naive datetime: the fractional part
is printed (as 6 digits) only when the microsecond field is nonzero. -/
def isoformat (t : Nat) : String :=
  let us := t % 1000000
  let totalSec := t / 1000000
  let s := totalSec % 60
  let totalMin := totalSec / 60
  let mi := totalMin % 60
  let totalH := totalMin / 60
  let h := totalH % 24
  let days := totalH / 24
  let c := civilFromDays days
  padNum 4 c.1 ++ "-" ++ padNum 2 c.2.1 ++ "-" ++ padNum 2 c.2.2 ++ "T" ++
    padNum 2 h ++ ":" ++ padNum 2 mi ++ ":" ++ padNum 2 s ++
    (if us == 0 then "" else "." ++ padNum 6 us)

/-! ## `QuickBooksAuthManager._is_token_expired` -/

/-- `qb_auth_manager.py` lines 44-55: missing or falsy (empty) timestamp is
expired; an unparsable timestamp is expired; otherwise expired iff
`now - token_time > timedelta(minutes=55)`. -/
def isTokenExpired (creds : Credentials) (now : Nat) : Bool :=
  match credGet creds "TOKEN_TIMESTAMP" with
  | none => true
  | some ts =>
      if ts = "" then true
      else
        match fromisoformat ts with
        | none => true
        | some t => decide ((now : Int) - (t : Int) > 55 * 60 * 1000000)

/-! ## Scripted network environment for the auth manager -/

/-- ASCII lower-casing, as used by Python `str.lower()` on the strings this
program compares (header names, provider error descriptions). -/
def lowerChar (c : Char) : Char :=
  if 'A' ≤ c ∧ c ≤ 'Z' then Char.ofNat (c.toNat + 32) else c

def strLower (s : String) : String := String.mk (s.data.map lowerChar)

def matchesAtFront : List Char → List Char → Bool
  | [], _ => true
  | _ :: _, [] => false
  | a :: as, b :: bs => a == b && matchesAtFront as bs

def listContainsSub (pat : List Char) : List Char → Bool
  | [] => matchesAtFront pat []
  | c :: cs => matchesAtFront pat (c :: cs) || listContainsSub pat cs

/-- Python `pat in s` on strings: substring containment. -/
def strContains (s pat : String) : Bool := listContainsSub pat.data s.data

/-- An HTTP response as seen by `make_authenticated_request`; `body` is an
opaque payload identifying the response. -/
structure HttpResponse where
  status : Nat
  body : String
deriving DecidableEq

/-- Outcome of one `requests.request` call: a response, or one of the
exception classes the Python code catches. -/
inductive ReqResult where
  | resp : HttpResponse → ReqResult
  | timeout : ReqResult
  | connError : ReqResult
  | exn : ReqResult
deriving DecidableEq

/-- Outcome of one POST to the token endpoint.  `jsonBody` is the parsed
JSON object (`none` when `response.json()` raises); the token endpoint's
bodies are flat string-to-string objects. -/
inductive RefreshResult where
  | resp (status : Nat) (jsonBody : Option (List (String × String))) (text : String)
  | timeout
  | connError
  | exn
deriving DecidableEq

/-- Lookup in a parsed flat JSON object (Python `dict.get`). -/
def jsonGet : List (String × String) → String → Option String
  | [], _ => none
  | p :: ps, k => if p.1 = k then some p.2 else jsonGet ps k

/-- Auth-manager state: in-memory credentials, the on-disk credential file,
the scripted network queues, and observable side-effect traces (token-endpoint
POST count, `time.sleep` durations). -/
structure ExecState where
  creds : Credentials
  file : Credentials
  refreshQueue : List RefreshResult
  requestQueue : List ReqResult
  refreshCalls : Nat := 0
  sleeps : List Nat := []
deriving DecidableEq

/-! ## `QuickBooksAuthManager.refresh_access_token` (lines 57-152) -/

/-- The refresh protocol.  Missing or empty `INTUIT_REFRESH_TOKEN` /
`INTUIT_CLIENT_ID` / `INTUIT_CLIENT_SECRET` fail without a network call
(Python falsy check).  Otherwise one POST is issued (consuming the head of
`refreshQueue`; an empty queue is read as a connection failure).  On 200 the
two tokens are read from the body (a missing key raises `KeyError`, caught
by the outer `except`, after any earlier assignment already happened),
`TOKEN_TIMESTAMP` is set to `now.isoformat()` and `_save_credentials()`
persists.  On 400 `invalid_grant` the refresh token is overwritten with the
sentinel `EXPIRED` and persisted.  Every other branch, including the Python
fall-through that returns `None` (falsy), is a failure without mutation. -/
def refreshAccessToken (now : Nat) (st : ExecState) : Bool × ExecState :=
  let refresh_token := (credGet st.creds "INTUIT_REFRESH_TOKEN").getD ""
  let client_id := (credGet st.creds "INTUIT_CLIENT_ID").getD ""
  let client_secret := (credGet st.creds "INTUIT_CLIENT_SECRET").getD ""
  if refresh_token = "" ∨ client_id = "" ∨ client_secret = "" then
    (false, st)
  else
    match st.refreshQueue with
    | [] => (false, { st with refreshCalls := st.refreshCalls + 1 })
    | r :: rest =>
      let st1 := { st with refreshQueue := rest, refreshCalls := st.refreshCalls + 1 }
      match r with
      | .resp status jsonBody text =>
        if status = 200 then
          match jsonBody with
          | none => (false, st1)
          | some j =>
            match jsonGet j "access_token" with
            | none => (false, st1)
            | some atk =>
              let creds1 := credSet st1.creds "INTUIT_ACCESS_TOKEN" atk
              match jsonGet j "refresh_token" with
              | none => (false, { st1 with creds := creds1 })
              | some rtk =>
                let creds2 := credSet (credSet creds1 "INTUIT_REFRESH_TOKEN" rtk)
                  "TOKEN_TIMESTAMP" (isoformat now)
                (true, { st1 with creds := creds2, file := creds2 })
        else
          let errorData := jsonBody.getD []
          let error_type := (jsonGet errorData "error").getD "unknown_error"
          let error_description := (jsonGet errorData "error_description").getD text
          if status = 400 then
            if error_type = "invalid_grant" then
              let creds1 := credSet st1.creds "INTUIT_REFRESH_TOKEN" "EXPIRED"
              (false, { st1 with creds := creds1, file := creds1 })
            else if strContains (strLower error_description) "expired" then
              (false, st1)
            else
              (false, st1)
          else
            (false, st1)
      | .timeout => (false, st1)
      | .connError => (false, st1)
      | .exn => (false, st1)

/-! ## `QuickBooksAuthManager.get_valid_headers` (lines 160-182) -/

def getValidHeaders (now : Nat) (st : ExecState) :
    Option (List (String × String)) × ExecState :=
  let step : Bool × ExecState :=
    if isTokenExpired st.creds now then refreshAccessToken now st else (true, st)
  match step with
  | (false, st') => (none, st')
  | (true, st') =>
    match credGet st'.creds "INTUIT_ACCESS_TOKEN" with
    | none => (none, st')
    | some tok =>
      if tok = "" then (none, st')
      else
        (some [("Authorization", "Bearer " ++ tok),
               ("Accept", "application/json"),
               ("Content-Type", "application/json")], st')

/-! ## `QuickBooksAuthManager.make_authenticated_request` (lines 184-264)

The `for attempt in range(max_retries + 1)` loop is written as structural
recursion on the number of remaining iterations (`fuel`), with the Python
`attempt` index carried alongside; the top-level entry starts at
`fuel = max_retries + 1`, `attempt = 0`.  Caller-supplied header merging and
the default timeout (lines 207-215) only shape the outgoing request, which
the scripted network ignores, so they are not represented. -/

def maxRetries : Nat := 2

def execLoop (now : Nat) : Nat → Nat → ExecState → Option HttpResponse × ExecState
  | 0, _, st => (none, st)
  | fuel + 1, attempt, st =>
    match getValidHeaders now st with
    | (none, st') =>
        if attempt < maxRetries then execLoop now fuel (attempt + 1) st'
        else (none, st')
    | (some _, st') =>
      let pull : ReqResult × ExecState :=
        match st'.requestQueue with
        | [] => (ReqResult.connError, st')
        | r :: rest => (r, { st' with requestQueue := rest })
      let res := pull.1
      let st2 := pull.2
      match res with
      | .resp response =>
        if response.status = 401 then
          if attempt < maxRetries then
            execLoop now fuel (attempt + 1)
              { st2 with creds := credSet st2.creds "TOKEN_TIMESTAMP" "2020-01-01T00:00:00" }
          else (some response, st2)
        else if response.status = 403 then (some response, st2)
        else if 500 ≤ response.status then
          if attempt < maxRetries then
            execLoop now fuel (attempt + 1) { st2 with sleeps := st2.sleeps ++ [2 ^ attempt] }
          else (some response, st2)
        else (some response, st2)
      | .timeout =>
        if attempt < maxRetries then
          execLoop now fuel (attempt + 1) { st2 with sleeps := st2.sleeps ++ [1] }
        else execLoop now fuel (attempt + 1) st2
      | .connError =>
        if attempt < maxRetries then
          execLoop now fuel (attempt + 1) { st2 with sleeps := st2.sleeps ++ [2] }
        else execLoop now fuel (attempt + 1) st2
      | .exn =>
        if attempt < maxRetries then
          execLoop now fuel (attempt + 1) { st2 with sleeps := st2.sleeps ++ [1] }
        else execLoop now fuel (attempt + 1) st2

def makeAuthenticatedRequest (now : Nat) (st : ExecState) :
    Option HttpResponse × ExecState :=
  execLoop now (maxRetries + 1) 0 st

/-! ## `QuickBooksAuthManager.requires_manual_reauth` (lines 300-320) -/

def requiresManualReauth (now : Nat) (st : ExecState) : Bool × ExecState :=
  let refresh_token := (credGet st.creds "INTUIT_REFRESH_TOKEN").getD ""
  if refresh_token = "" ∨ refresh_token = "EXPIRED" then (true, st)
  else if isTokenExpired st.creds now then
    match refreshAccessToken now st with
    | (false, st') => (true, st')
    | (true, st') => (false, st')
  else (false, st)

/-! ## `qb_error_handler.py`: response shape and JSON values -/

/-- A JSON value, as far as `QuickBooksErrorHandler` inspects one. -/
inductive Jso where
  | str : String → Jso
  | num : Int → Jso
  | arr : List Jso → Jso
  | obj : List (String × Jso) → Jso
deriving BEq

/-- Python truthiness of a JSON value ('' , 0, [], {} are falsy). -/
def jTruthy : Jso → Bool
  | .str s => !(s = "")
  | .num n => !(n = 0)
  | .arr l => !l.isEmpty
  | .obj l => !l.isEmpty

/-- Python `value.get(key)` on a parsed JSON value: `none` (the outer layer)
models the `AttributeError` raised when the value is not a dict; the inner
`Option` is the `.get` result (`none` = key absent, caller's default
applies). -/
def jGet : Jso → String → Option (Option Jso)
  | .obj l, k => some ((l.find? (fun p => p.1 == k)).map (·.2))
  | _, _ => none

/-- Python `value[0]`: first element of a list, first character of a
non-empty string; everything else raises (`none`). -/
def jIndex0 : Jso → Option Jso
  | .arr (x :: _) => some x
  | .str s =>
      match s.data with
      | [] => none
      | c :: _ => some (.str (String.mk [c]))
  | _ => none

/-- Python `pat in value`: substring test on a string, membership on a
list, key test on a dict; raises (`none`) on a number. -/
def jContains (pat : String) : Jso → Option Bool
  | .str s => some (strContains s pat)
  | .arr l => some (l.contains (Jso.str pat))
  | .obj l => some (l.any (fun p => p.1 == pat))
  | .num _ => none

/-- Python `str(value)` as far as the handler interpolates it into
messages; only string payloads are rendered faithfully (the claims under
study never inspect a message built from a non-string `Detail`). -/
def jToPyStr : Jso → String
  | .str s => s
  | .num n => toString n
  | .arr _ => "<list>"
  | .obj _ => "<dict>"

/-- An HTTP response as seen by the error handler: status, response
headers (case-insensitive lookup, as `requests` provides), the parsed JSON
body (`none` when `response.json()` raises) and the raw text. -/
structure HResponse where
  status : Nat
  headers : List (String × String)
  jsonBody : Option Jso
  text : String := ""

/-- `response.headers.get(key)` — `requests` uses a case-insensitive
dict. -/
def headerGet (hs : List (String × String)) (k : String) : Option String :=
  (hs.find? (fun p => strLower p.1 == strLower k)).map (·.2)

/-- The slice of the `error_info` dict that the handlers under study read
and write.  `error_code` / `error_element` / `raw_error` and the base
fields `timestamp`, `url`, `intuit_tid` are response metadata that no
claim touches and are not carried. -/
structure ErrorInfo where
  error_type : String
  error_category : String
  error_message : String
  troubleshooting_steps : List String
  user_message : String
  retry_recommended : Bool
  retry_after_seconds : Option Int := none
deriving DecidableEq

/-- The base `error_info` dict built at the top of `handle_api_error`
(lines 106-117). -/
def baseErrorInfo : ErrorInfo :=
  { error_type := "unknown"
    error_category := "unknown"
    error_message := ""
    troubleshooting_steps := []
    user_message := ""
    retry_recommended := false
    retry_after_seconds := none }

/-- Python `int(s)`: optional surrounding whitespace, optional sign,
decimal digits; `none` models the `ValueError` raise. -/
def pyInt (s : String) : Option Int :=
  let core := (s.data.dropWhile (fun c => c == ' ' || c == '\t' || c == '\n' ||
    c == '\r')).reverse.dropWhile (fun c => c == ' ' || c == '\t' || c == '\n' ||
    c == '\r') |>.reverse
  match core with
  | '-' :: ds => (parseNatDigits ds).map (fun n => -(n : Int))
  | '+' :: ds => (parseNatDigits ds).map (fun n => (n : Int))
  | ds => (parseNatDigits ds).map (fun n => (n : Int))

/-! ## `QuickBooksErrorHandler._handle_400_errors` (lines 150-199) -/

/-- The body of the `try` block in `_handle_400_errors`: everything up to
and including the fault-kind dispatch.  `none` models any raise inside the
`try` (non-JSON body, non-dict shapes, bad indexing, `in` on a number);
the surrounding `except` then overwrites every carried field, so partial
updates to carried fields before the raise are not observable. -/
def handle400core (r : HResponse) (info : ErrorInfo) : Option ErrorInfo :=
  match r.jsonBody with
  | none => none
  | some data =>
    match jGet data "Fault" with
    | none => none
    | some faultOpt =>
      let fault := faultOpt.getD (Jso.obj [])
      match jGet fault "Error" with
      | none => none
      | some errListOpt =>
        match (match errListOpt with
               | none => some (Jso.obj [])
               | some v => if jTruthy v then jIndex0 v else some (Jso.obj [])) with
        | none => none
        | some error =>
          match jGet error "code", jGet error "Detail", jGet error "element" with
          | some _codeOpt, some detailOpt, some _elementOpt =>
            let error_detail := detailOpt.getD (Jso.str "")
            let info1 := { info with
              error_type := "validation_error"
              error_category := "client_error"
              error_message := "Validation Error: " ++ jToPyStr error_detail
              retry_recommended := false }
            (match jContains "ValidationFault" error_detail with
             | none => none
             | some hasVF =>
               if hasVF then
                 some { info1 with
                   troubleshooting_steps :=
                     ["Check required fields are provided",
                      "Validate data types and formats",
                      "Ensure field values meet QuickBooks constraints",
                      "Review API documentation for field requirements"]
                   user_message :=
                     "Invalid data provided. Please check your input and try again." }
               else
                 match jContains "BusinessValidationFault" error_detail with
                 | none => none
                 | some hasBVF =>
                   if hasBVF then
                     some { info1 with
                       troubleshooting_steps :=
                         ["Check business logic constraints",
                          "Verify entity relationships exist",
                          "Ensure account types are appropriate",
                          "Check for duplicate entries"]
                       user_message :=
                         "Business rule violation. Please review the data and correct any conflicts." }
                   else
                     some info1)
          | _, _, _ => none

def handle400Errors (r : HResponse) (info : ErrorInfo) : ErrorInfo :=
  match handle400core r info with
  | some info' => info'
  | none =>
    { info with
      error_type := "syntax_error"
      error_category := "client_error"
      error_message := "Bad Request - Syntax or validation error"
      troubleshooting_steps :=
        ["Check request syntax", "Validate JSON format", "Review API documentation"]
      user_message := "Request format error. Please check your data and try again."
      retry_recommended := false }

/-! ## The remaining status handlers (lines 201-281) -/

def handle401Errors (_r : HResponse) (info : ErrorInfo) : ErrorInfo :=
  { info with
    error_type := "authentication_error"
    error_category := "auth_error"
    error_message := "Unauthorized - Invalid or expired access token"
    troubleshooting_steps :=
      ["Check access token validity",
       "Refresh access token using refresh token",
       "Verify token has not expired",
       "Re-authorize if refresh token is expired"]
    user_message := "Authentication failed. The system will attempt to refresh your credentials."
    retry_recommended := true }

def handle403Errors (_r : HResponse) (info : ErrorInfo) : ErrorInfo :=
  { info with
    error_type := "authorization_error"
    error_category := "auth_error"
    error_message := "Forbidden - Insufficient permissions or CSRF error"
    troubleshooting_steps :=
      ["Verify app has required permissions",
       "Check CSRF protection headers",
       "Ensure proper referrer headers",
       "Validate user agent string"]
    user_message := "Access denied. Please contact support if this persists."
    retry_recommended := false }

def handle404Errors (_r : HResponse) (info : ErrorInfo) : ErrorInfo :=
  { info with
    error_type := "resource_not_found"
    error_category := "client_error"
    error_message := "Resource not found"
    troubleshooting_steps :=
      ["Verify resource ID is correct",
       "Check if resource exists in current company",
       "Ensure proper endpoint URL",
       "Verify company ID (realm_id) is correct"]
    user_message := "The requested resource could not be found."
    retry_recommended := false }

/-- 429 handler: reads `Retry-After` (default `'60'` when absent) and runs
it through `int(...)`; a non-integer header value raises out of the
handler (`none`). -/
def handle429Errors (r : HResponse) (info : ErrorInfo) : Option ErrorInfo :=
  let retry_after := (headerGet r.headers "Retry-After").getD "60"
  match pyInt retry_after with
  | none => none
  | some n =>
    some { info with
      error_type := "rate_limit_exceeded"
      error_category := "rate_limit"
      error_message := "Rate limit exceeded - retry after " ++ retry_after ++ " seconds"
      retry_after_seconds := some n
      troubleshooting_steps :=
        ["Wait " ++ retry_after ++ " seconds before retrying",
         "Implement exponential backoff",
         "Consider reducing request frequency",
         "Review rate limit quotas"]
      user_message := "Request rate limit exceeded. Please wait " ++ retry_after ++ " seconds."
      retry_recommended := true }

def handle500Errors (r : HResponse) (info : ErrorInfo) : ErrorInfo :=
  { info with
    error_type := "server_error"
    error_category := "server_error"
    error_message := "Server error (" ++ toString r.status ++ ") - QuickBooks service issue"
    troubleshooting_steps :=
      ["Retry request after brief delay",
       "Check QuickBooks service status",
       "Implement exponential backoff",
       "Contact QuickBooks support if persistent"]
    user_message := "Temporary service issue. The system will retry automatically."
    retry_recommended := true }

/-- `handle_api_error` (lines 101-148): builds the base record and
dispatches on the status code; statuses with no branch leave the base
record unchanged.  `none` models an uncaught raise (only possible on the
429 path). -/
def handleApiError (r : HResponse) : Option ErrorInfo :=
  if r.status = 400 then some (handle400Errors r baseErrorInfo)
  else if r.status = 401 then some (handle401Errors r baseErrorInfo)
  else if r.status = 403 then some (handle403Errors r baseErrorInfo)
  else if r.status = 404 then some (handle404Errors r baseErrorInfo)
  else if r.status = 429 then handle429Errors r baseErrorInfo
  else if 500 ≤ r.status then some (handle500Errors r baseErrorInfo)
  else some baseErrorInfo

/-! ## `QuickBooksErrorHandler.log_api_request` (lines 44-61): header
redaction before logging -/

/-- The `safe_headers` dict that is serialised into the log: all keys whose
lower-casing is `authorization` are dropped, then the key `Authorization`
is set to `'[REDACTED]'` when any such key was present and to `None`
otherwise. -/
def safeHeaders (headers : List (String × String)) : List (String × Option String) :=
  let filtered := (headers.filter (fun p => !(strLower p.1 == "authorization"))).map
    (fun p => (p.1, some p.2))
  let hasAuth := headers.any (fun p => strLower p.1 == "authorization")
  filtered ++ [("Authorization", if hasAuth then some "[REDACTED]" else none)]

/-- Does one token-endpoint outcome satisfy the success path of
`refresh_access_token` (HTTP 200, JSON body carrying both tokens)?  Every
other outcome makes the Python function return a falsy value. -/
def refreshOutcomeSucceeds : RefreshResult → Bool
  | .resp status (some j) _ =>
      status == 200 && (jsonGet j "access_token").isSome && (jsonGet j "refresh_token").isSome
  | .resp _ none _ => false
  | .timeout => false
  | .connError => false
  | .exn => false

/-! # Theorems -/

/-! ## Dictionary lemmas -/

theorem credGet_credSet_self (c : Credentials) (k v : String) :
    credGet (credSet c k v) k = some v := by
  induction c with
  | nil => simp [credSet, credGet]
  | cons p ps ih =>
      by_cases h : p.1 = k
      · simp [credSet, credGet, h]
      · simp [credSet, credGet, h, ih]

theorem credGet_credSet_ne (c : Credentials) (k k' v : String) (h : k' ≠ k) :
    credGet (credSet c k v) k' = credGet c k' := by
  induction c with
  | nil => simp [credSet, credGet, Ne.symm h]
  | cons p ps ih =>
      by_cases hp : p.1 = k
      · simp [credSet, credGet, hp, Ne.symm h, h]
      · by_cases hp' : p.1 = k'
        · simp [credSet, credGet, hp, hp', h]
        · simp [credSet, credGet, hp, hp', ih]

/-- The freshness check reads only the `TOKEN_TIMESTAMP` entry. -/
theorem isTokenExpired_congr (creds creds' : Credentials) (now : Nat)
    (h : credGet creds' "TOKEN_TIMESTAMP" = credGet creds "TOKEN_TIMESTAMP") :
    isTokenExpired creds' now = isTokenExpired creds now := by
  unfold isTokenExpired
  rw [h]

/-! ## Claim C2 — freshness check -/

/-- C2 counterexample: the claim states that a timestamp at least 55
minutes old yields `true`, but at an age of exactly 55 minutes the code's
strict comparison (`> timedelta(minutes=55)`) yields `false`: with the
stored timestamp 2026-01-01T00:00:00 and the current time
2026-01-01T00:55:00 (exactly 55 minutes, as the second conjunct shows),
`_is_token_expired` returns `false`. -/
theorem c2_counterexample :
    isTokenExpired [("TOKEN_TIMESTAMP", "2026-01-01T00:00:00")] (mkDT 2026 1 1 0 55 0 0) = false ∧
    (mkDT 2026 1 1 0 55 0 0 : Int) - (mkDT 2026 1 1 0 0 0 0 : Int) = 55 * 60 * 1000000 ∧
    fromisoformat "2026-01-01T00:00:00" = some (mkDT 2026 1 1 0 0 0 0) := by
  refine ⟨by decide, by decide, by decide⟩

/-- C2 (amended): `_is_token_expired` returns `true` when
`TOKEN_TIMESTAMP` is missing or unparsable, and otherwise returns `true`
iff `now` minus the parsed timestamp strictly exceeds 55 minutes (so a
timestamp 0-55 minutes old, inclusive, yields `false` and one strictly
more than 55 minutes old yields `true`), independent of every other
credential field. -/
theorem c2_amended (creds : Credentials) (now : Nat) (ts : String) (t : Nat) :
    (credGet creds "TOKEN_TIMESTAMP" = none → isTokenExpired creds now = true) ∧
    (credGet creds "TOKEN_TIMESTAMP" = some ts → fromisoformat ts = none →
      isTokenExpired creds now = true) ∧
    (credGet creds "TOKEN_TIMESTAMP" = some ts → fromisoformat ts = some t →
      (isTokenExpired creds now = true ↔ (now : Int) - (t : Int) > 55 * 60 * 1000000)) ∧
    (∀ creds' : Credentials,
      credGet creds' "TOKEN_TIMESTAMP" = credGet creds "TOKEN_TIMESTAMP" →
      isTokenExpired creds' now = isTokenExpired creds now) := by
  refine ⟨?_, ?_, ?_, fun creds' h => isTokenExpired_congr creds creds' now h⟩
  · intro h
    simp [isTokenExpired, h]
  · intro h hp
    by_cases he : ts = "" <;> simp [isTokenExpired, h, he, hp]
  · intro h hp
    by_cases he : ts = ""
    · subst he
      rw [show fromisoformat "" = none from by decide] at hp
      exact absurd hp (by simp)
    · simp [isTokenExpired, h, he, hp]

/-- C2 witness: a timestamp one microsecond beyond 55 minutes old is
expired, by the third conjunct of `c2_amended` at concrete inputs. -/
theorem c2_amended_witness :
    isTokenExpired [("TOKEN_TIMESTAMP", "2026-01-01T00:00:00")] (mkDT 2026 1 1 0 55 0 1) = true :=
  ((c2_amended [("TOKEN_TIMESTAMP", "2026-01-01T00:00:00")] (mkDT 2026 1 1 0 55 0 1)
      "2026-01-01T00:00:00" (mkDT 2026 1 1 0 0 0 0)).2.2.1 (by decide) (by decide)).mpr (by decide)

/-! ## Claims C3, C4 — refresh protocol -/

/-- C3 (confirmed): a refresh attempt answered by HTTP 400 with provider
error code `invalid_grant` overwrites the stored refresh token with the
sentinel `EXPIRED`, persists the credential set, and returns failure; a
subsequent `requires_manual_reauth` call on the resulting state (at any
later time) returns `true` immediately, leaving the state — in particular
the network queues and the POST counter — untouched. -/
theorem c3_invalid_grant_sticky (now now' : Nat) (st : ExecState)
    (rt cid csec : String) (body : List (String × String)) (text : String)
    (rest : List RefreshResult)
    (hrt : credGet st.creds "INTUIT_REFRESH_TOKEN" = some rt) (hrtne : rt ≠ "")
    (hcid : credGet st.creds "INTUIT_CLIENT_ID" = some cid) (hcidne : cid ≠ "")
    (hcs : credGet st.creds "INTUIT_CLIENT_SECRET" = some csec) (hcsne : csec ≠ "")
    (hq : st.refreshQueue = RefreshResult.resp 400 (some body) text :: rest)
    (herr : jsonGet body "error" = some "invalid_grant") :
    (refreshAccessToken now st).1 = false ∧
    credGet (refreshAccessToken now st).2.creds "INTUIT_REFRESH_TOKEN" = some "EXPIRED" ∧
    (refreshAccessToken now st).2.file = (refreshAccessToken now st).2.creds ∧
    (refreshAccessToken now st).2.refreshCalls = st.refreshCalls + 1 ∧
    (refreshAccessToken now st).2.refreshQueue = rest ∧
    requiresManualReauth now' (refreshAccessToken now st).2 = (true, (refreshAccessToken now st).2) := by
  have hmain : refreshAccessToken now st =
      (false, { st with
        creds := credSet st.creds "INTUIT_REFRESH_TOKEN" "EXPIRED"
        file := credSet st.creds "INTUIT_REFRESH_TOKEN" "EXPIRED"
        refreshQueue := rest
        refreshCalls := st.refreshCalls + 1 }) := by
    unfold refreshAccessToken
    rw [hrt, hcid, hcs, hq]
    simp [hrtne, hcidne, hcsne, herr]
  refine ⟨by rw [hmain], ?_, by rw [hmain], by rw [hmain], by rw [hmain], ?_⟩
  · rw [hmain]
    exact credGet_credSet_self st.creds _ _
  · rw [hmain]
    simp [requiresManualReauth, credGet_credSet_self]

/-- C3 witness: the theorem at a concrete state. -/
theorem c3_witness :
    (refreshAccessToken 0
      { creds := [("INTUIT_CLIENT_ID", "id"), ("INTUIT_CLIENT_SECRET", "sec"),
                  ("INTUIT_REFRESH_TOKEN", "rt1")]
        file := []
        refreshQueue := [RefreshResult.resp 400 (some [("error", "invalid_grant")]) ""]
        requestQueue := [] }).1 = false ∧
    credGet (refreshAccessToken 0
      { creds := [("INTUIT_CLIENT_ID", "id"), ("INTUIT_CLIENT_SECRET", "sec"),
                  ("INTUIT_REFRESH_TOKEN", "rt1")]
        file := []
        refreshQueue := [RefreshResult.resp 400 (some [("error", "invalid_grant")]) ""]
        requestQueue := [] }).2.creds "INTUIT_REFRESH_TOKEN" = some "EXPIRED" := by
  have h := c3_invalid_grant_sticky 0 7
    { creds := [("INTUIT_CLIENT_ID", "id"), ("INTUIT_CLIENT_SECRET", "sec"),
                ("INTUIT_REFRESH_TOKEN", "rt1")]
      file := []
      refreshQueue := [RefreshResult.resp 400 (some [("error", "invalid_grant")]) ""]
      requestQueue := [] }
    "rt1" "id" "sec" [("error", "invalid_grant")] "" []
    (by decide) (by decide) (by decide) (by decide) (by decide) (by decide) rfl (by decide)
  exact ⟨h.1, h.2.1⟩

/-- C4 (confirmed): a refresh attempt answered by HTTP 200 with a JSON
body carrying `access_token` and `refresh_token` stores both values
(rotating the refresh token), sets `TOKEN_TIMESTAMP` to the current time's
ISO form, persists the credential set (the saved file equals the updated
in-memory set) and returns success; in particular the stored refresh token
equals the response's value, so it differs from the pre-refresh value
whenever the provider rotated it. -/
theorem c4_refresh_rotates (now : Nat) (st : ExecState)
    (rt cid csec atk rtk : String) (body : List (String × String)) (text : String)
    (rest : List RefreshResult)
    (hrt : credGet st.creds "INTUIT_REFRESH_TOKEN" = some rt) (hrtne : rt ≠ "")
    (hcid : credGet st.creds "INTUIT_CLIENT_ID" = some cid) (hcidne : cid ≠ "")
    (hcs : credGet st.creds "INTUIT_CLIENT_SECRET" = some csec) (hcsne : csec ≠ "")
    (hq : st.refreshQueue = RefreshResult.resp 200 (some body) text :: rest)
    (hat : jsonGet body "access_token" = some atk)
    (hrf : jsonGet body "refresh_token" = some rtk) :
    (refreshAccessToken now st).1 = true ∧
    credGet (refreshAccessToken now st).2.creds "INTUIT_ACCESS_TOKEN" = some atk ∧
    credGet (refreshAccessToken now st).2.creds "INTUIT_REFRESH_TOKEN" = some rtk ∧
    credGet (refreshAccessToken now st).2.creds "TOKEN_TIMESTAMP" = some (isoformat now) ∧
    (refreshAccessToken now st).2.file = (refreshAccessToken now st).2.creds ∧
    (rtk ≠ rt → credGet (refreshAccessToken now st).2.creds "INTUIT_REFRESH_TOKEN" ≠ some rt) := by
  have hmain : refreshAccessToken now st =
      (true, { st with
        creds := credSet (credSet (credSet st.creds "INTUIT_ACCESS_TOKEN" atk)
          "INTUIT_REFRESH_TOKEN" rtk) "TOKEN_TIMESTAMP" (isoformat now)
        file := credSet (credSet (credSet st.creds "INTUIT_ACCESS_TOKEN" atk)
          "INTUIT_REFRESH_TOKEN" rtk) "TOKEN_TIMESTAMP" (isoformat now)
        refreshQueue := rest
        refreshCalls := st.refreshCalls + 1 }) := by
    unfold refreshAccessToken
    rw [hrt, hcid, hcs, hq]
    simp [hrtne, hcidne, hcsne, hat, hrf]
  have haccess : credGet (refreshAccessToken now st).2.creds "INTUIT_ACCESS_TOKEN" = some atk := by
    rw [hmain]
    rw [credGet_credSet_ne _ _ _ _ (by decide), credGet_credSet_ne _ _ _ _ (by decide)]
    exact credGet_credSet_self _ _ _
  have hrefresh : credGet (refreshAccessToken now st).2.creds "INTUIT_REFRESH_TOKEN" = some rtk := by
    rw [hmain]
    rw [credGet_credSet_ne _ _ _ _ (by decide)]
    exact credGet_credSet_self _ _ _
  refine ⟨by rw [hmain], haccess, hrefresh, ?_, by rw [hmain], ?_⟩
  · rw [hmain]
    exact credGet_credSet_self _ _ _
  · intro hne hcontra
    rw [hrefresh] at hcontra
    exact hne (Option.some.inj hcontra)

/-- C4 witness: the theorem at a concrete state, showing the rotation. -/
theorem c4_witness :
    (refreshAccessToken (mkDT 2026 1 1 12 0 0 0)
      { creds := [("INTUIT_CLIENT_ID", "id"), ("INTUIT_CLIENT_SECRET", "sec"),
                  ("INTUIT_REFRESH_TOKEN", "rt1")]
        file := []
        refreshQueue := [RefreshResult.resp 200
          (some [("access_token", "tokB"), ("refresh_token", "rt2")]) ""]
        requestQueue := [] }).1 = true ∧
    credGet (refreshAccessToken (mkDT 2026 1 1 12 0 0 0)
      { creds := [("INTUIT_CLIENT_ID", "id"), ("INTUIT_CLIENT_SECRET", "sec"),
                  ("INTUIT_REFRESH_TOKEN", "rt1")]
        file := []
        refreshQueue := [RefreshResult.resp 200
          (some [("access_token", "tokB"), ("refresh_token", "rt2")]) ""]
        requestQueue := [] }).2.creds "INTUIT_REFRESH_TOKEN" ≠ some "rt1" := by
  have h := c4_refresh_rotates (mkDT 2026 1 1 12 0 0 0)
    { creds := [("INTUIT_CLIENT_ID", "id"), ("INTUIT_CLIENT_SECRET", "sec"),
                ("INTUIT_REFRESH_TOKEN", "rt1")]
      file := []
      refreshQueue := [RefreshResult.resp 200
        (some [("access_token", "tokB"), ("refresh_token", "rt2")]) ""]
      requestQueue := [] }
    "rt1" "id" "sec" "tokB" "rt2" [("access_token", "tokB"), ("refresh_token", "rt2")] "" []
    (by decide) (by decide) (by decide) (by decide) (by decide) (by decide) rfl
    (by decide) (by decide)
  exact ⟨h.1, h.2.2.2.2.2 (by decide)⟩

/-! ## Executor lemmas -/

/-- With a fresh timestamp and a usable access token, `get_valid_headers`
issues no refresh and leaves the state untouched. -/
theorem getValidHeaders_fresh (now : Nat) (st : ExecState) (tok : String)
    (h1 : isTokenExpired st.creds now = false)
    (h2 : credGet st.creds "INTUIT_ACCESS_TOKEN" = some tok) (h3 : tok ≠ "") :
    getValidHeaders now st =
      (some [("Authorization", "Bearer " ++ tok), ("Accept", "application/json"),
             ("Content-Type", "application/json")], st) := by
  simp [getValidHeaders, h1, h2, h3]

/-- With an expired timestamp and a failing refresh, `get_valid_headers`
returns no headers and the state left by the refresh. -/
theorem getValidHeaders_refresh_fail (now : Nat) (st : ExecState)
    (hexp : isTokenExpired st.creds now = true)
    (hfail : (refreshAccessToken now st).1 = false) :
    getValidHeaders now st = (none, (refreshAccessToken now st).2) := by
  unfold getValidHeaders
  rw [hexp]
  rcases hres : refreshAccessToken now st with ⟨b, st'⟩
  rw [hres] at hfail
  simp at hfail
  subst hfail
  simp

/-! ## Claim C5 — 401 handling in the executor -/

/-- C5 (confirmed), in three parts.  (1) On a 401 with attempts remaining
the executor rewrites `TOKEN_TIMESTAMP` to the sentinel past date and
re-enters the loop with the next attempt, and the sentinel makes the next
freshness check report stale (for any current time more than 55 minutes
past 2020-01-01T00:00:00).  (2) A concrete `[401, 200]` run returns the
final 200 response with exactly one token-endpoint POST.  (3) On a 401
with no attempts remaining, the 401 response itself is the final result —
no synthetic error is substituted. -/
theorem c5_retry_on_401 :
    (∀ (fuel attempt now : Nat) (st : ExecState) (tok : String) (r : HttpResponse)
       (rest : List ReqResult),
      (now : Int) - (mkDT 2020 1 1 0 0 0 0 : Int) > 55 * 60 * 1000000 →
      isTokenExpired st.creds now = false →
      credGet st.creds "INTUIT_ACCESS_TOKEN" = some tok → tok ≠ "" →
      st.requestQueue = ReqResult.resp r :: rest → r.status = 401 → attempt < maxRetries →
      execLoop now (fuel + 1) attempt st =
        execLoop now fuel (attempt + 1)
          { st with creds := credSet st.creds "TOKEN_TIMESTAMP" "2020-01-01T00:00:00",
                    requestQueue := rest } ∧
      isTokenExpired (credSet st.creds "TOKEN_TIMESTAMP" "2020-01-01T00:00:00") now = true) ∧
    ((makeAuthenticatedRequest (mkDT 2026 1 1 12 0 0 0)
      { creds := [("INTUIT_CLIENT_ID", "id"), ("INTUIT_CLIENT_SECRET", "sec"),
                  ("INTUIT_REFRESH_TOKEN", "rt1"), ("INTUIT_ACCESS_TOKEN", "tokA"),
                  ("TOKEN_TIMESTAMP", "2026-01-01T11:30:00")]
        file := []
        refreshQueue := [RefreshResult.resp 200
          (some [("access_token", "tokB"), ("refresh_token", "rt2")]) ""]
        requestQueue := [ReqResult.resp ⟨401, "a"⟩, ReqResult.resp ⟨200, "b"⟩] }).1 =
        some ⟨200, "b"⟩ ∧
     (makeAuthenticatedRequest (mkDT 2026 1 1 12 0 0 0)
      { creds := [("INTUIT_CLIENT_ID", "id"), ("INTUIT_CLIENT_SECRET", "sec"),
                  ("INTUIT_REFRESH_TOKEN", "rt1"), ("INTUIT_ACCESS_TOKEN", "tokA"),
                  ("TOKEN_TIMESTAMP", "2026-01-01T11:30:00")]
        file := []
        refreshQueue := [RefreshResult.resp 200
          (some [("access_token", "tokB"), ("refresh_token", "rt2")]) ""]
        requestQueue := [ReqResult.resp ⟨401, "a"⟩, ReqResult.resp ⟨200, "b"⟩] }).2.refreshCalls = 1) ∧
    (∀ (fuel now : Nat) (st : ExecState) (tok : String) (r : HttpResponse)
       (rest : List ReqResult),
      isTokenExpired st.creds now = false →
      credGet st.creds "INTUIT_ACCESS_TOKEN" = some tok → tok ≠ "" →
      st.requestQueue = ReqResult.resp r :: rest → r.status = 401 →
      execLoop now (fuel + 1) maxRetries st = (some r, { st with requestQueue := rest })) := by
  refine ⟨?_, ⟨by decide, by decide⟩, ?_⟩
  · intro fuel attempt now st tok r rest hnow h1 h2 h3 hq h401 hatt
    constructor
    · conv_lhs => rw [execLoop]
      rw [getValidHeaders_fresh now st tok h1 h2 h3]
      simp only [hq, h401, hatt, if_true]
    · have hred : credGet (credSet st.creds "TOKEN_TIMESTAMP" "2020-01-01T00:00:00")
          "TOKEN_TIMESTAMP" = some "2020-01-01T00:00:00" := credGet_credSet_self _ _ _
      simp only [isTokenExpired, hred]
      rw [show fromisoformat "2020-01-01T00:00:00" = some (mkDT 2020 1 1 0 0 0 0) from by decide]
      rw [if_neg (by decide : ¬("2020-01-01T00:00:00" = ""))]
      exact decide_eq_true hnow
  · intro fuel now st tok r rest h1 h2 h3 hq h401
    conv_lhs => rw [execLoop]
    rw [getValidHeaders_fresh now st tok h1 h2 h3]
    simp [hq, h401]

/-- C5 witness: the first part of the theorem at concrete inputs. -/
theorem c5_witness :
    execLoop (mkDT 2026 1 1 12 0 0 0) 3 0
      { creds := [("INTUIT_ACCESS_TOKEN", "tokA"), ("TOKEN_TIMESTAMP", "2026-01-01T11:30:00")]
        file := []
        refreshQueue := []
        requestQueue := [ReqResult.resp ⟨401, "a"⟩] } =
      execLoop (mkDT 2026 1 1 12 0 0 0) 2 1
        { creds := credSet [("INTUIT_ACCESS_TOKEN", "tokA"),
            ("TOKEN_TIMESTAMP", "2026-01-01T11:30:00")] "TOKEN_TIMESTAMP" "2020-01-01T00:00:00"
          file := []
          refreshQueue := []
          requestQueue := [] } :=
  ((c5_retry_on_401.1 2 0 (mkDT 2026 1 1 12 0 0 0)
    { creds := [("INTUIT_ACCESS_TOKEN", "tokA"), ("TOKEN_TIMESTAMP", "2026-01-01T11:30:00")]
      file := []
      refreshQueue := []
      requestQueue := [ReqResult.resp ⟨401, "a"⟩] }
    "tokA" ⟨401, "a"⟩ []
    (by decide) (by decide) (by decide) (by decide) rfl rfl (by decide)).1)

/-! ## Claim C6 — 5xx retry with exponential backoff -/

/-- One loop iteration on a ≥ 500 response with attempts remaining: sleep
`2^attempt` seconds and retry with the next attempt index. -/
theorem execLoop_step_500 (fuel attempt now : Nat) (st : ExecState) (tok : String)
    (r : HttpResponse) (rest : List ReqResult)
    (h1 : isTokenExpired st.creds now = false)
    (h2 : credGet st.creds "INTUIT_ACCESS_TOKEN" = some tok) (h3 : tok ≠ "")
    (hq : st.requestQueue = ReqResult.resp r :: rest) (h5 : 500 ≤ r.status)
    (hatt : attempt < maxRetries) :
    execLoop now (fuel + 1) attempt st =
      execLoop now fuel (attempt + 1)
        { st with requestQueue := rest, sleeps := st.sleeps ++ [2 ^ attempt] } := by
  have e1 : ¬(r.status = 401) := by omega
  have e2 : ¬(r.status = 403) := by omega
  conv_lhs => rw [execLoop]
  rw [getValidHeaders_fresh now st tok h1 h2 h3]
  simp [hq, e1, e2, h5, hatt]

/-- One loop iteration on a ≥ 500 response with no attempts remaining: the
response is returned as final. -/
theorem execLoop_last_500 (fuel attempt now : Nat) (st : ExecState) (tok : String)
    (r : HttpResponse) (rest : List ReqResult)
    (h1 : isTokenExpired st.creds now = false)
    (h2 : credGet st.creds "INTUIT_ACCESS_TOKEN" = some tok) (h3 : tok ≠ "")
    (hq : st.requestQueue = ReqResult.resp r :: rest) (h5 : 500 ≤ r.status)
    (hatt : ¬(attempt < maxRetries)) :
    execLoop now (fuel + 1) attempt st = (some r, { st with requestQueue := rest }) := by
  have e1 : ¬(r.status = 401) := by omega
  have e2 : ¬(r.status = 403) := by omega
  conv_lhs => rw [execLoop]
  rw [getValidHeaders_fresh now st tok h1 h2 h3]
  simp [hq, e1, e2, h5, hatt]

/-- C6 (confirmed): with a fresh token and three scripted responses all of
status ≥ 500, the executor sleeps `2^0 = 1` then `2^1 = 2` seconds between
attempts, consumes exactly 3 attempts, never touches the token endpoint,
and returns the third response (still carrying its ≥ 500 status) as
final. -/
theorem c6_backoff_500 (now : Nat) (creds file : Credentials) (q : List RefreshResult)
    (tok : String) (r1 r2 r3 : HttpResponse)
    (h1 : isTokenExpired creds now = false)
    (h2 : credGet creds "INTUIT_ACCESS_TOKEN" = some tok) (h3 : tok ≠ "")
    (h51 : 500 ≤ r1.status) (h52 : 500 ≤ r2.status) (h53 : 500 ≤ r3.status) :
    makeAuthenticatedRequest now
      { creds := creds, file := file, refreshQueue := q,
        requestQueue := [ReqResult.resp r1, ReqResult.resp r2, ReqResult.resp r3],
        refreshCalls := 0, sleeps := [] } =
      (some r3,
       { creds := creds, file := file, refreshQueue := q, requestQueue := [],
         refreshCalls := 0, sleeps := [1, 2] }) := by
  have s1 := execLoop_step_500 2 0 now
    { creds := creds, file := file, refreshQueue := q,
      requestQueue := [ReqResult.resp r1, ReqResult.resp r2, ReqResult.resp r3],
      refreshCalls := 0, sleeps := [] } tok r1 [ReqResult.resp r2, ReqResult.resp r3]
    h1 h2 h3 rfl h51 (by decide)
  have s2 := execLoop_step_500 1 1 now
    { creds := creds, file := file, refreshQueue := q,
      requestQueue := [ReqResult.resp r2, ReqResult.resp r3],
      refreshCalls := 0, sleeps := [1] } tok r2 [ReqResult.resp r3]
    h1 h2 h3 rfl h52 (by decide)
  have s3 := execLoop_last_500 0 2 now
    { creds := creds, file := file, refreshQueue := q,
      requestQueue := [ReqResult.resp r3],
      refreshCalls := 0, sleeps := [1, 2] } tok r3 []
    h1 h2 h3 rfl h53 (by decide)
  exact s1.trans (s2.trans s3)

/-- C6 witness: the theorem at a concrete state with three 500/503
responses. -/
theorem c6_witness :
    makeAuthenticatedRequest (mkDT 2026 1 1 12 0 0 0)
      { creds := [("INTUIT_ACCESS_TOKEN", "tokA"), ("TOKEN_TIMESTAMP", "2026-01-01T11:30:00")],
        file := [], refreshQueue := [],
        requestQueue := [ReqResult.resp ⟨500, "x"⟩, ReqResult.resp ⟨503, "y"⟩,
          ReqResult.resp ⟨500, "z"⟩],
        refreshCalls := 0, sleeps := [] } =
      (some ⟨500, "z"⟩,
       { creds := [("INTUIT_ACCESS_TOKEN", "tokA"), ("TOKEN_TIMESTAMP", "2026-01-01T11:30:00")],
         file := [], refreshQueue := [], requestQueue := [],
         refreshCalls := 0, sleeps := [1, 2] }) :=
  c6_backoff_500 (mkDT 2026 1 1 12 0 0 0)
    [("INTUIT_ACCESS_TOKEN", "tokA"), ("TOKEN_TIMESTAMP", "2026-01-01T11:30:00")]
    [] [] "tokA" ⟨500, "x"⟩ ⟨503, "y"⟩ ⟨500, "z"⟩
    (by decide) (by decide) (by decide) (by decide) (by decide) (by decide)

/-! ## Claim C1 — a failed pre-flight refresh is retried, not fatal -/

/-- Any token-endpoint outcome that misses the success path makes
`refresh_access_token` return `false` while preserving `TOKEN_TIMESTAMP`,
the client credentials, the non-emptiness of the stored refresh token, and
the request queue, and consuming exactly one queued outcome. -/
theorem refreshAccessToken_fail (now : Nat) (st : ExecState) (r : RefreshResult)
    (rest : List RefreshResult) (rt cid csec : String)
    (hrt : credGet st.creds "INTUIT_REFRESH_TOKEN" = some rt) (hrtne : rt ≠ "")
    (hcid : credGet st.creds "INTUIT_CLIENT_ID" = some cid) (hcidne : cid ≠ "")
    (hcs : credGet st.creds "INTUIT_CLIENT_SECRET" = some csec) (hcsne : csec ≠ "")
    (hq : st.refreshQueue = r :: rest)
    (hfail : refreshOutcomeSucceeds r = false) :
    (refreshAccessToken now st).1 = false ∧
    credGet (refreshAccessToken now st).2.creds "TOKEN_TIMESTAMP" =
      credGet st.creds "TOKEN_TIMESTAMP" ∧
    (∃ rt', credGet (refreshAccessToken now st).2.creds "INTUIT_REFRESH_TOKEN" = some rt' ∧
      rt' ≠ "") ∧
    credGet (refreshAccessToken now st).2.creds "INTUIT_CLIENT_ID" = some cid ∧
    credGet (refreshAccessToken now st).2.creds "INTUIT_CLIENT_SECRET" = some csec ∧
    (refreshAccessToken now st).2.refreshQueue = rest ∧
    (refreshAccessToken now st).2.refreshCalls = st.refreshCalls + 1 ∧
    (refreshAccessToken now st).2.requestQueue = st.requestQueue := by
  unfold refreshAccessToken
  rw [hrt, hcid, hcs, hq]
  simp only [Option.getD_some]
  rw [if_neg (by simp [hrtne, hcidne, hcsne])]
  rcases r with ⟨status, jsonBody, text⟩ | _ | _ | _
  · by_cases h200 : status = 200
    · subst h200
      rcases jsonBody with _ | j
      · exact ⟨rfl, rfl, ⟨rt, hrt, hrtne⟩, hcid, hcs, rfl, rfl, rfl⟩
      · simp only [refreshOutcomeSucceeds, beq_self_eq_true, Bool.true_and,
          Bool.and_eq_false_iff] at hfail
        rcases hacc : jsonGet j "access_token" with _ | atk
        · simp only [hacc]
          exact ⟨rfl, rfl, ⟨rt, hrt, hrtne⟩, hcid, hcs, rfl, rfl, rfl⟩
        · rcases href : jsonGet j "refresh_token" with _ | rtk
          · simp only [hacc, href]
            refine ⟨rfl, ?_, ⟨rt, ?_, hrtne⟩, ?_, ?_, rfl, rfl, rfl⟩
            · exact credGet_credSet_ne st.creds "INTUIT_ACCESS_TOKEN" "TOKEN_TIMESTAMP" atk
                (by decide)
            · exact (credGet_credSet_ne st.creds "INTUIT_ACCESS_TOKEN" "INTUIT_REFRESH_TOKEN" atk
                (by decide)).trans hrt
            · exact (credGet_credSet_ne st.creds "INTUIT_ACCESS_TOKEN" "INTUIT_CLIENT_ID" atk
                (by decide)).trans hcid
            · exact (credGet_credSet_ne st.creds "INTUIT_ACCESS_TOKEN" "INTUIT_CLIENT_SECRET" atk
                (by decide)).trans hcs
          · exfalso
            rcases hfail with h | h
            · rw [hacc] at h
              simp at h
            · rw [href] at h
              simp at h
    · dsimp only
      rw [if_neg h200]
      by_cases h400 : status = 400
      · rw [if_pos h400]
        by_cases hig : (jsonGet (jsonBody.getD []) "error").getD "unknown_error" = "invalid_grant"
        · rw [if_pos hig]
          refine ⟨rfl, ?_, ⟨"EXPIRED", ?_, by decide⟩, ?_, ?_, rfl, rfl, rfl⟩
          · exact credGet_credSet_ne st.creds "INTUIT_REFRESH_TOKEN" "TOKEN_TIMESTAMP" "EXPIRED"
              (by decide)
          · exact credGet_credSet_self st.creds "INTUIT_REFRESH_TOKEN" "EXPIRED"
          · exact (credGet_credSet_ne st.creds "INTUIT_REFRESH_TOKEN" "INTUIT_CLIENT_ID" "EXPIRED"
              (by decide)).trans hcid
          · exact (credGet_credSet_ne st.creds "INTUIT_REFRESH_TOKEN" "INTUIT_CLIENT_SECRET"
              "EXPIRED" (by decide)).trans hcs
        · rw [if_neg hig]
          split
          · exact ⟨rfl, rfl, ⟨rt, hrt, hrtne⟩, hcid, hcs, rfl, rfl, rfl⟩
          · exact ⟨rfl, rfl, ⟨rt, hrt, hrtne⟩, hcid, hcs, rfl, rfl, rfl⟩
      · rw [if_neg h400]
        exact ⟨rfl, rfl, ⟨rt, hrt, hrtne⟩, hcid, hcs, rfl, rfl, rfl⟩
  · exact ⟨rfl, rfl, ⟨rt, hrt, hrtne⟩, hcid, hcs, rfl, rfl, rfl⟩
  · exact ⟨rfl, rfl, ⟨rt, hrt, hrtne⟩, hcid, hcs, rfl, rfl, rfl⟩
  · exact ⟨rfl, rfl, ⟨rt, hrt, hrtne⟩, hcid, hcs, rfl, rfl, rfl⟩

/-- One loop iteration when no headers could be obtained and attempts
remain: the loop continues with the next attempt (`continue`), carrying the
state left by the failed header acquisition. -/
theorem execLoop_step_noheaders (fuel attempt now : Nat) (st : ExecState)
    (hh : (getValidHeaders now st).1 = none) (hatt : attempt < maxRetries) :
    execLoop now (fuel + 1) attempt st =
      execLoop now fuel (attempt + 1) (getValidHeaders now st).2 := by
  conv_lhs => rw [execLoop]
  rcases hg : getValidHeaders now st with ⟨o, st'⟩
  rw [hg] at hh
  simp only at hh
  subst hh
  simp [hatt]

/-- One loop iteration when no headers could be obtained and no attempts
remain: the call returns `None`. -/
theorem execLoop_last_noheaders (fuel attempt now : Nat) (st : ExecState)
    (hh : (getValidHeaders now st).1 = none) (hatt : ¬(attempt < maxRetries)) :
    execLoop now (fuel + 1) attempt st = (none, (getValidHeaders now st).2) := by
  conv_lhs => rw [execLoop]
  rcases hg : getValidHeaders now st with ⟨o, st'⟩
  rw [hg] at hh
  simp only at hh
  subst hh
  simp [hatt]

/-- C1 counterexample: with an expired token and a token endpoint that
fails three times, `make_authenticated_request` does NOT abort after the
first failed refresh: it re-runs the refresh on each of its three attempts
(three POSTs are issued), contradicting the claim that the refresh failure
aborts the whole call immediately with no further attempts. -/
theorem c1_counterexample :
    (makeAuthenticatedRequest 0
      { creds := [("INTUIT_CLIENT_ID", "id"), ("INTUIT_CLIENT_SECRET", "sec"),
                  ("INTUIT_REFRESH_TOKEN", "rt")]
        file := [("INTUIT_CLIENT_ID", "id"), ("INTUIT_CLIENT_SECRET", "sec"),
                 ("INTUIT_REFRESH_TOKEN", "rt")]
        refreshQueue := [RefreshResult.resp 500 none "", RefreshResult.resp 500 none "",
                         RefreshResult.resp 500 none ""]
        requestQueue := [] }).2.refreshCalls = 3 ∧
    (makeAuthenticatedRequest 0
      { creds := [("INTUIT_CLIENT_ID", "id"), ("INTUIT_CLIENT_SECRET", "sec"),
                  ("INTUIT_REFRESH_TOKEN", "rt")]
        file := [("INTUIT_CLIENT_ID", "id"), ("INTUIT_CLIENT_SECRET", "sec"),
                 ("INTUIT_REFRESH_TOKEN", "rt")]
        refreshQueue := [RefreshResult.resp 500 none "", RefreshResult.resp 500 none "",
                         RefreshResult.resp 500 none ""]
        requestQueue := [] }).1 = none := by
  exact ⟨by decide, by decide⟩

/-- C1 (amended): when the pre-flight freshness check finds the token
expired and the refresh fails, the executor does not abort: it moves on to
the next attempt and re-runs the refresh there, so with three consecutive
failing refresh outcomes it issues three token-endpoint POSTs (one per
attempt), never issues the actual HTTP request, and finally returns `None`
rather than surfacing the refresh failure as a response. -/
theorem c1_amended (now : Nat) (st : ExecState) (rt cid csec : String)
    (r1 r2 r3 : RefreshResult) (qrest : List RefreshResult)
    (hexp : isTokenExpired st.creds now = true)
    (hrt : credGet st.creds "INTUIT_REFRESH_TOKEN" = some rt) (hrtne : rt ≠ "")
    (hcid : credGet st.creds "INTUIT_CLIENT_ID" = some cid) (hcidne : cid ≠ "")
    (hcs : credGet st.creds "INTUIT_CLIENT_SECRET" = some csec) (hcsne : csec ≠ "")
    (hq : st.refreshQueue = r1 :: r2 :: r3 :: qrest)
    (hf1 : refreshOutcomeSucceeds r1 = false)
    (hf2 : refreshOutcomeSucceeds r2 = false)
    (hf3 : refreshOutcomeSucceeds r3 = false) :
    (makeAuthenticatedRequest now st).1 = none ∧
    (makeAuthenticatedRequest now st).2.refreshCalls = st.refreshCalls + 3 ∧
    (makeAuthenticatedRequest now st).2.requestQueue = st.requestQueue := by
  obtain ⟨g1fail, g1ts, ⟨rt1, g1rt, g1rtne⟩, g1cid, g1cs, g1q, g1calls, g1req⟩ :=
    refreshAccessToken_fail now st r1 (r2 :: r3 :: qrest) rt cid csec
      hrt hrtne hcid hcidne hcs hcsne hq hf1
  have hexp1 : isTokenExpired (refreshAccessToken now st).2.creds now = true :=
    (isTokenExpired_congr st.creds (refreshAccessToken now st).2.creds now g1ts).trans hexp
  have hgv1 : getValidHeaders now st = (none, (refreshAccessToken now st).2) :=
    getValidHeaders_refresh_fail now st hexp g1fail
  obtain ⟨g2fail, g2ts, ⟨rt2, g2rt, g2rtne⟩, g2cid, g2cs, g2q, g2calls, g2req⟩ :=
    refreshAccessToken_fail now (refreshAccessToken now st).2 r2 (r3 :: qrest) rt1 cid csec
      g1rt g1rtne g1cid hcidne g1cs hcsne g1q hf2
  have hexp2 : isTokenExpired (refreshAccessToken now (refreshAccessToken now st).2).2.creds
      now = true :=
    (isTokenExpired_congr (refreshAccessToken now st).2.creds
      (refreshAccessToken now (refreshAccessToken now st).2).2.creds now g2ts).trans hexp1
  have hgv2 : getValidHeaders now (refreshAccessToken now st).2 =
      (none, (refreshAccessToken now (refreshAccessToken now st).2).2) :=
    getValidHeaders_refresh_fail now (refreshAccessToken now st).2 hexp1 g2fail
  obtain ⟨g3fail, g3ts, ⟨rt3, g3rt, g3rtne⟩, g3cid, g3cs, g3q, g3calls, g3req⟩ :=
    refreshAccessToken_fail now (refreshAccessToken now (refreshAccessToken now st).2).2
      r3 qrest rt2 cid csec g2rt g2rtne g2cid hcidne g2cs hcsne g2q hf3
  have hgv3 : getValidHeaders now (refreshAccessToken now (refreshAccessToken now st).2).2 =
      (none, (refreshAccessToken now
        (refreshAccessToken now (refreshAccessToken now st).2).2).2) :=
    getValidHeaders_refresh_fail now
      (refreshAccessToken now (refreshAccessToken now st).2).2 hexp2 g3fail
  have s1 : execLoop now (2 + 1) 0 st =
      execLoop now 2 1 (refreshAccessToken now st).2 :=
    (execLoop_step_noheaders 2 0 now st (by rw [hgv1]) (by decide)).trans (by rw [hgv1])
  have s2 : execLoop now (1 + 1) 1 (refreshAccessToken now st).2 =
      execLoop now 1 2 (refreshAccessToken now (refreshAccessToken now st).2).2 :=
    (execLoop_step_noheaders 1 1 now (refreshAccessToken now st).2
      (by rw [hgv2]) (by decide)).trans (by rw [hgv2])
  have s3 : execLoop now (0 + 1) 2 (refreshAccessToken now (refreshAccessToken now st).2).2 =
      (none, (refreshAccessToken now
        (refreshAccessToken now (refreshAccessToken now st).2).2).2) :=
    (execLoop_last_noheaders 0 2 now (refreshAccessToken now (refreshAccessToken now st).2).2
      (by rw [hgv3]) (by decide)).trans (by rw [hgv3])
  have htotal : makeAuthenticatedRequest now st =
      (none, (refreshAccessToken now
        (refreshAccessToken now (refreshAccessToken now st).2).2).2) :=
    s1.trans (s2.trans s3)
  rw [htotal]
  refine ⟨rfl, ?_, ?_⟩
  · simp only
    rw [g3calls, g2calls, g1calls]
  · simp only
    rw [g3req, g2req, g1req]

/-- C1 witness: the amended theorem at a concrete state. -/
theorem c1_amended_witness :
    (makeAuthenticatedRequest 7
      { creds := [("INTUIT_CLIENT_ID", "id"), ("INTUIT_CLIENT_SECRET", "sec"),
                  ("INTUIT_REFRESH_TOKEN", "rt")]
        file := []
        refreshQueue := [RefreshResult.timeout, RefreshResult.resp 401 none "",
                         RefreshResult.connError]
        requestQueue := [ReqResult.resp ⟨200, "ok"⟩] }).1 = none ∧
    (makeAuthenticatedRequest 7
      { creds := [("INTUIT_CLIENT_ID", "id"), ("INTUIT_CLIENT_SECRET", "sec"),
                  ("INTUIT_REFRESH_TOKEN", "rt")]
        file := []
        refreshQueue := [RefreshResult.timeout, RefreshResult.resp 401 none "",
                         RefreshResult.connError]
        requestQueue := [ReqResult.resp ⟨200, "ok"⟩] }).2.refreshCalls = 0 + 3 := by
  have h := c1_amended 7
    { creds := [("INTUIT_CLIENT_ID", "id"), ("INTUIT_CLIENT_SECRET", "sec"),
                ("INTUIT_REFRESH_TOKEN", "rt")]
      file := []
      refreshQueue := [RefreshResult.timeout, RefreshResult.resp 401 none "",
                       RefreshResult.connError]
      requestQueue := [ReqResult.resp ⟨200, "ok"⟩] }
    "rt" "id" "sec" RefreshResult.timeout (RefreshResult.resp 401 none "")
    RefreshResult.connError []
    (by decide) (by decide) (by decide) (by decide) (by decide) (by decide) (by decide)
    rfl (by decide) (by decide) (by decide)
  exact ⟨h.1, h.2.1⟩

/-! ## Claim C10 — persistence on the 401 path -/

/-- C10 counterexample: the claim's consequence fails.  A fresh credential
set receives a 401, the executor rewrites the in-memory timestamp to the
sentinel and retries; the retry's refresh hits `invalid_grant`, whose
handler calls `_save_credentials` — persisting the whole in-memory map,
sentinel timestamp included.  So the on-disk file changes without any
successful refresh, and the failed retry does NOT leave the file's
timestamp at its pre-call value (`2026-01-01T11:30:00` becomes
`2020-01-01T00:00:00`). -/
theorem c10_counterexample :
    credGet (makeAuthenticatedRequest (mkDT 2026 1 1 12 0 0 0)
      { creds := [("INTUIT_CLIENT_ID", "id"), ("INTUIT_CLIENT_SECRET", "sec"),
                  ("INTUIT_REFRESH_TOKEN", "rt1"), ("INTUIT_ACCESS_TOKEN", "tokA"),
                  ("TOKEN_TIMESTAMP", "2026-01-01T11:30:00")]
        file := [("INTUIT_CLIENT_ID", "id"), ("INTUIT_CLIENT_SECRET", "sec"),
                 ("INTUIT_REFRESH_TOKEN", "rt1"), ("INTUIT_ACCESS_TOKEN", "tokA"),
                 ("TOKEN_TIMESTAMP", "2026-01-01T11:30:00")]
        refreshQueue := [RefreshResult.resp 400 (some [("error", "invalid_grant")]) "",
                         RefreshResult.resp 400 (some [("error", "invalid_grant")]) ""]
        requestQueue := [ReqResult.resp ⟨401, "a"⟩] }).2.file "TOKEN_TIMESTAMP" =
      some "2020-01-01T00:00:00" ∧
    (makeAuthenticatedRequest (mkDT 2026 1 1 12 0 0 0)
      { creds := [("INTUIT_CLIENT_ID", "id"), ("INTUIT_CLIENT_SECRET", "sec"),
                  ("INTUIT_REFRESH_TOKEN", "rt1"), ("INTUIT_ACCESS_TOKEN", "tokA"),
                  ("TOKEN_TIMESTAMP", "2026-01-01T11:30:00")]
        file := [("INTUIT_CLIENT_ID", "id"), ("INTUIT_CLIENT_SECRET", "sec"),
                 ("INTUIT_REFRESH_TOKEN", "rt1"), ("INTUIT_ACCESS_TOKEN", "tokA"),
                 ("TOKEN_TIMESTAMP", "2026-01-01T11:30:00")]
        refreshQueue := [RefreshResult.resp 400 (some [("error", "invalid_grant")]) "",
                         RefreshResult.resp 400 (some [("error", "invalid_grant")]) ""]
        requestQueue := [ReqResult.resp ⟨401, "a"⟩] }).1 = none ∧
    refreshOutcomeSucceeds (RefreshResult.resp 400 (some [("error", "invalid_grant")]) "")
      = false := by
  exact ⟨by decide, by decide, by decide⟩

/-- C10 (amended): the forced-staleness write on the 401 path mutates only
the in-memory credential map — the loop iteration that handles the 401
passes the on-disk `file` component through unchanged (no
`_save_credentials` call on that step).  The file may still change later in
the same call through a FAILED refresh (`invalid_grant` persists), as the
counterexample shows, so only the single 401 step itself is
persistence-free. -/
theorem c10_amended (fuel attempt now : Nat) (creds file : Credentials)
    (rq : List RefreshResult) (r : HttpResponse) (rest : List ReqResult)
    (rc : Nat) (sl : List Nat) (tok : String)
    (h1 : isTokenExpired creds now = false)
    (h2 : credGet creds "INTUIT_ACCESS_TOKEN" = some tok) (h3 : tok ≠ "")
    (h401 : r.status = 401) (hatt : attempt < maxRetries) :
    execLoop now (fuel + 1) attempt
      { creds := creds, file := file, refreshQueue := rq,
        requestQueue := ReqResult.resp r :: rest, refreshCalls := rc, sleeps := sl } =
    execLoop now fuel (attempt + 1)
      { creds := credSet creds "TOKEN_TIMESTAMP" "2020-01-01T00:00:00", file := file,
        refreshQueue := rq, requestQueue := rest, refreshCalls := rc, sleeps := sl } := by
  conv_lhs => rw [execLoop]
  rw [getValidHeaders_fresh now
    { creds := creds, file := file, refreshQueue := rq,
      requestQueue := ReqResult.resp r :: rest, refreshCalls := rc, sleeps := sl }
    tok h1 h2 h3]
  simp only [h401, hatt, if_true]

/-- C10 witness: the amended theorem at a concrete state. -/
theorem c10_amended_witness :
    execLoop (mkDT 2026 1 1 12 0 0 0) 3 0
      { creds := [("INTUIT_ACCESS_TOKEN", "tokA"), ("TOKEN_TIMESTAMP", "2026-01-01T11:30:00")]
        file := [("TOKEN_TIMESTAMP", "2026-01-01T11:30:00")]
        refreshQueue := []
        requestQueue := [ReqResult.resp ⟨401, "a"⟩], refreshCalls := 0, sleeps := [] } =
    execLoop (mkDT 2026 1 1 12 0 0 0) 2 1
      { creds := credSet [("INTUIT_ACCESS_TOKEN", "tokA"),
          ("TOKEN_TIMESTAMP", "2026-01-01T11:30:00")] "TOKEN_TIMESTAMP" "2020-01-01T00:00:00"
        file := [("TOKEN_TIMESTAMP", "2026-01-01T11:30:00")]
        refreshQueue := []
        requestQueue := [], refreshCalls := 0, sleeps := [] } :=
  c10_amended 2 0 (mkDT 2026 1 1 12 0 0 0)
    [("INTUIT_ACCESS_TOKEN", "tokA"), ("TOKEN_TIMESTAMP", "2026-01-01T11:30:00")]
    [("TOKEN_TIMESTAMP", "2026-01-01T11:30:00")] [] ⟨401, "a"⟩ [] 0 [] "tokA"
    (by decide) (by decide) (by decide) rfl (by decide)

/-! ## Claim C7 — 400 classification -/

/-- Whenever the `try` body of `_handle_400_errors` completes without
raising, the produced record carries `error_type = 'validation_error'`
(for business-validation faults as well — only the troubleshooting steps
and user message differ), category `client_error`, and no retry. -/
theorem handle400core_fields (r : HResponse) (info info' : ErrorInfo)
    (h : handle400core r info = some info') :
    info'.error_type = "validation_error" ∧ info'.error_category = "client_error" ∧
    info'.retry_recommended = false := by
  unfold handle400core at h
  repeat
    any_goals first
      | exact Option.noConfusion h
      | split at h
      | (symm at h; split at h)
      | dsimp only at h
  all_goals cases h
  all_goals exact ⟨rfl, rfl, rfl⟩

/-- C7 counterexample: a 400 response whose fault body is a
business-validation fault (`Detail` mentioning `BusinessValidationFault`)
is classified with `error_type = 'validation_error'`, not the claimed
`'business_validation_error'` — the handler sets `validation_error`
unconditionally whenever the body parses, and no
`business_validation_error` type exists in the code. -/
theorem c7_counterexample :
    (handleApiError
      { status := 400, headers := [],
        jsonBody := some (Jso.obj [("Fault", Jso.obj [("Error", Jso.arr [Jso.obj
          [("Detail", Jso.str "Duplicate Name Exists Error : BusinessValidationFault"),
           ("code", Jso.str "6240")]])])]),
        text := "" }).map (fun i => i.error_type) = some "validation_error" ∧
    (handleApiError
      { status := 400, headers := [],
        jsonBody := some (Jso.obj [("Fault", Jso.obj [("Error", Jso.arr [Jso.obj
          [("Detail", Jso.str "Duplicate Name Exists Error : BusinessValidationFault"),
           ("code", Jso.str "6240")]])])]),
        text := "" }).map (fun i => i.error_type) ≠ some "business_validation_error" := by
  exact ⟨by decide, by decide⟩

/-- C7 (amended): for every 400 response, the classifier recommends no
retry; its `error_type` is `'validation_error'` exactly when the fault-body
inspection completes without raising (business-validation faults included)
and `'syntax_error'` otherwise — in particular when the body is not JSON —
and it is never `'business_validation_error'`.  The last conjunct records
the `handle_api_error` dispatch for status 400. -/
theorem c7_amended (r : HResponse) :
    (handle400Errors r baseErrorInfo).retry_recommended = false ∧
    (handle400Errors r baseErrorInfo).error_type =
      (if (handle400core r baseErrorInfo).isSome then "validation_error"
       else "syntax_error") ∧
    (handle400Errors r baseErrorInfo).error_type ≠ "business_validation_error" ∧
    (handle400Errors { r with jsonBody := none } baseErrorInfo).error_type =
      "syntax_error" ∧
    handleApiError { r with status := 400 } =
      some (handle400Errors { r with status := 400 } baseErrorInfo) := by
  have hmain : (handle400Errors r baseErrorInfo).retry_recommended = false ∧
      (handle400Errors r baseErrorInfo).error_type =
        (if (handle400core r baseErrorInfo).isSome then "validation_error"
         else "syntax_error") := by
    rcases hc : handle400core r baseErrorInfo with _ | i
    · simp [handle400Errors, hc]
    · obtain ⟨ht, _, hr⟩ := handle400core_fields r baseErrorInfo i hc
      simp [handle400Errors, hc, ht, hr]
  refine ⟨hmain.1, hmain.2, ?_, ?_, ?_⟩
  · rw [hmain.2]
    rcases handle400core r baseErrorInfo with _ | i <;> simp
  · simp [handle400Errors, handle400core]
  · simp [handleApiError]

/-! ## Claim C8 — 429 rate limiting -/

/-- C8 (confirmed): a 429 response is classified with category
`rate_limit` and `retry_recommended = true`; `retry_after_seconds` is the
integer value of the `Retry-After` header (case-insensitive lookup, as the
HTTP library provides) and defaults to 60 when the header is absent. -/
theorem c8_rate_limit (r : HResponse) (h429 : r.status = 429) :
    (headerGet r.headers "Retry-After" = none →
      (handleApiError r).map (fun i => i.error_category) = some "rate_limit" ∧
      (handleApiError r).map (fun i => i.retry_recommended) = some true ∧
      (handleApiError r).map (fun i => i.retry_after_seconds) = some (some 60)) ∧
    (∀ (hv : String) (n : Int),
      headerGet r.headers "Retry-After" = some hv → pyInt hv = some n →
      (handleApiError r).map (fun i => i.error_category) = some "rate_limit" ∧
      (handleApiError r).map (fun i => i.retry_recommended) = some true ∧
      (handleApiError r).map (fun i => i.retry_after_seconds) = some (some n)) := by
  have hdispatch : handleApiError r = handle429Errors r baseErrorInfo := by
    simp [handleApiError, h429]
  constructor
  · intro habs
    rw [hdispatch]
    unfold handle429Errors
    rw [habs]
    simp only [Option.getD_none]
    rw [show pyInt "60" = some 60 from by decide]
    exact ⟨rfl, rfl, rfl⟩
  · intro hv n hsome hn
    rw [hdispatch]
    unfold handle429Errors
    rw [hsome]
    simp only [Option.getD_some]
    rw [hn]
    exact ⟨rfl, rfl, rfl⟩

/-- C8 witness: the theorem at a concrete 429 response carrying
`retry-after: 120` (lower-cased header name, found case-insensitively). -/
theorem c8_witness :
    (handleApiError
      { status := 429, headers := [("retry-after", "120")], jsonBody := none, text := "" }).map
      (fun i => i.retry_after_seconds) = some (some 120) :=
  ((c8_rate_limit
    { status := 429, headers := [("retry-after", "120")], jsonBody := none, text := "" }
    rfl).2 "120" 120 (by decide) (by decide)).2.2

/-! ## Claim C9 — bearer-token redaction in request logging -/

/-- C9 (confirmed): take a request header map that carries the bearer
token only inside authorization entries (any letter-casing): every other
entry's key and value avoid the token, and the token is not a fragment of
the fixed strings `[REDACTED]` / `Authorization` that the sanitiser
emits.  Then no key and no value of the logged `safe_headers` map contains
the token: the authorization entries are dropped and replaced by the
redaction marker. -/
theorem c9_redaction (headers : List (String × String)) (tok : String)
    (hne : tok ≠ "")
    (hbear : ∃ k, (k, "Bearer " ++ tok) ∈ headers ∧ strLower k = "authorization")
    (hother : ∀ p ∈ headers, strLower p.1 ≠ "authorization" →
      strContains p.1 tok = false ∧ strContains p.2 tok = false)
    (hred : strContains "[REDACTED]" tok = false)
    (hakey : strContains "Authorization" tok = false) :
    ∀ q ∈ safeHeaders headers,
      strContains q.1 tok = false ∧ (∀ v, q.2 = some v → strContains v tok = false) := by
  intro q hq
  unfold safeHeaders at hq
  rw [List.mem_append] at hq
  rcases hq with hq | hq
  · rw [List.mem_map] at hq
    obtain ⟨p, hpmem, hpq⟩ := hq
    rw [List.mem_filter] at hpmem
    obtain ⟨hpin, hplow⟩ := hpmem
    have hlow : strLower p.1 ≠ "authorization" := by
      intro hcontra
      rw [hcontra] at hplow
      simp at hplow
    obtain ⟨hk, hv⟩ := hother p hpin hlow
    subst hpq
    exact ⟨hk, fun v hv' => by cases hv'; exact hv⟩
  · rw [List.mem_singleton] at hq
    subst hq
    refine ⟨hakey, fun v hv => ?_⟩
    by_cases hauth : headers.any (fun p => strLower p.1 == "authorization")
    · rw [if_pos hauth] at hv
      cases hv
      exact hred
    · rw [if_neg hauth] at hv
      exact absurd hv (by simp)

/-- C9 witness: the redaction property applied to the `Authorization`
entry that the sanitiser emits for a concrete header map carrying a bearer
token. -/
theorem c9_witness : strContains "Authorization" "s3cr3t" = false :=
  (c9_redaction [("authorization", "Bearer s3cr3t"), ("Accept", "application/json")] "s3cr3t"
    (by decide)
    ⟨"authorization", by decide, by decide⟩
    (by decide) (by decide) (by decide)
    ("Authorization", some "[REDACTED]") (by decide)).1

/-- C7 witness: the amended theorem at a concrete non-JSON 400 response. -/
theorem c7_amended_witness :
    (handle400Errors
      { status := 400, headers := [], jsonBody := none, text := "<html>" }
      baseErrorInfo).retry_recommended = false :=
  (c7_amended { status := 400, headers := [], jsonBody := none, text := "<html>" }).1
